import Mathlib

/-!
Shallow embedding of gopher3d (main.go): a mobile app that decompresses
embedded mesh pieces into GPU buffers once, then redraws a touch-controlled
view each frame.  GL side effects are recorded as a trace of commands;
process-terminating log.Fatal (asset corruption) is modelled by an
Option-none result.  Float32 arithmetic is modelled over the rationals,
with the trigonometric functions and the float constant pi carried as
environment parameters (the math library is deterministic and external).
-/

namespace Gopher3d

/-- Numeric values of the OpenGL enum constants used by main.go. -/
def glDEPTH_TEST : Nat := 2929

def glARRAY_BUFFER : Nat := 34962

def glSTATIC_DRAW : Nat := 35044

def glTRIANGLES : Nat := 4

def glFLOAT : Nat := 5126

def glCOLOR_BUFFER_BIT : Nat := 16384

def glDEPTH_BUFFER_BIT : Nat := 256

/-- Constant coordsPerVertex of main.go. -/
def coordsPerVertex : Nat := 3

abbrev Vec3 := ℚ × ℚ × ℚ

abbrev Vec4 := ℚ × ℚ × ℚ × ℚ

/-- Symbolic 4x4 matrix values: the f32 library constructors applied by
draw, recorded with the exact arguments the code passes.  The library
functions themselves are external deterministic pure functions, so a
matrix value is determined by this symbolic form. -/
inductive Mat4 where
  | identity : Mat4
  | perspective (fov aspect near far : ℚ) : Mat4
  | lookAt (eye center up : Vec3) : Mat4
  | scaled (m : Mat4) (x y z : ℚ) : Mat4
deriving DecidableEq

/-- Structure piece of main.go: compressed data, color, and the fields
populated at GL initialization (Go zero values: handle 0, count 0). -/
structure Piece where
  vertexData : List Nat
  normalData : List Nat
  color : Vec4
  verticies : Nat
  normals : Nat
  vertexCount : Int
deriving DecidableEq

/-- Color constant gopherSkin of main.go: {0.761, 0.442, 0.180, 1}. -/
def gopherSkin : Vec4 := (761/1000, 442/1000, 180/1000, 1)

/-- Color constant gopherFur of main.go: {0, 0.537, 0.8, 1}. -/
def gopherFur : Vec4 := (0, 537/1000, 8/10, 1)

/-- Color constant white of main.go: {1, 1, 1, 1}. -/
def white : Vec4 := (1, 1, 1, 1)

/-- Helper building a piece as the pieces literal of main.go does:
only data and color are set, the GL fields hold Go zero values. -/
def mkPiece (vd nd : List Nat) (c : Vec4) : Piece :=
  { vertexData := vd, normalData := nd, color := c
    verticies := 0, normals := 0, vertexCount := 0 }

/-- Modelled from the spec: the embedded compressed byte arrays
(Body_Sphere_002 and friends, produced by gengopher.go into gopher.go)
are not part of the given sources; they are abstracted as an assignment
d of a (vertex, normal) compressed byte pair to each of the 12 pieces.
The 12 entries and their colors follow the pieces literal of main.go. -/
def pieces (d : Fin 12 → List Nat × List Nat) : List Piece :=
  [mkPiece (d 0).1 (d 0).2 gopherFur,
   mkPiece (d 1).1 (d 1).2 gopherSkin,
   mkPiece (d 2).1 (d 2).2 gopherSkin,
   mkPiece (d 3).1 (d 3).2 gopherSkin,
   mkPiece (d 4).1 (d 4).2 gopherSkin,
   mkPiece (d 5).1 (d 5).2 gopherSkin,
   mkPiece (d 6).1 (d 6).2 white,
   mkPiece (d 7).1 (d 7).2 gopherFur,
   mkPiece (d 8).1 (d 8).2 gopherFur,
   mkPiece (d 9).1 (d 9).2 gopherSkin,
   mkPiece (d 10).1 (d 10).2 white,
   mkPiece (d 11).1 (d 11).2 white]

/-- Names of the shader variables resolved by initGL. -/
inductive ShaderVar where
  | position | normal
  | lightDirection | lightAmbientColor | lightDiffuseColor
  | materialAmbientFactor | materialDiffuseFactor
  | model | view | projection
deriving DecidableEq

/-- External collaborators of the rendering core, fixed for a frame:
flate decompression (none = corrupt data, log.Fatal), shader program
creation (none = compile or link failure, logged), location resolution,
the surface dimensions geom.Width and geom.Height, and the float32 math
library (sin, cos, and the constant pi). -/
structure Env where
  inflate : List Nat → Option (List Nat)
  createProgram : Option Nat
  getAttribLocation : Nat → ShaderVar → Nat
  getUniformLocation : Nat → ShaderVar → Nat
  width : ℚ
  height : ℚ
  sin : ℚ → ℚ
  cos : ℚ → ℚ
  pi : ℚ

/-- Package-level mutable state of main.go: the program handle (0 is the
uninitialized sentinel), the resolved attribute and uniform locations
(none = never resolved), the latest touch location, the pieces, and a
counter supplying fresh GL buffer handles. -/
structure GState where
  program : Nat
  position : Option Nat
  normal : Option Nat
  lightDirection : Option Nat
  lightAmbientColor : Option Nat
  lightDiffuseColor : Option Nat
  materialAmbientFactor : Option Nat
  materialDiffuseFactor : Option Nat
  model : Option Nat
  view : Option Nat
  projection : Option Nat
  touchX : ℚ
  touchY : ℚ
  pieces : List Piece
  nextBuffer : Nat
deriving DecidableEq

/-- State at program start: all Go zero values, pieces from the literal. -/
def initState (d : Fin 12 → List Nat × List Nat) : GState :=
  { program := 0, position := none, normal := none
    lightDirection := none, lightAmbientColor := none
    lightDiffuseColor := none, materialAmbientFactor := none
    materialDiffuseFactor := none, model := none, view := none
    projection := none, touchX := 0, touchY := 0
    pieces := pieces d, nextBuffer := 1 }

/-- GL commands issued by the code, recorded as a trace. -/
inductive GLCmd where
  | enable (cap : Nat)
  | genBuffer (b : Nat)
  | bindBuffer (target b : Nat)
  | bufferData (target usage : Nat) (data : List Nat)
  | clearColor (r g b a : ℚ)
  | clear (mask : Nat)
  | useProgram (p : Nat)
  | writeMat4 (loc : Option Nat) (m : Mat4)
  | writeVec4 (loc : Option Nat) (v : Vec4)
  | uniform3f (loc : Option Nat) (x y z : ℚ)
  | uniform4f (loc : Option Nat) (x y z w : ℚ)
  | enableVertexAttribArray (loc : Option Nat)
  | vertexAttribPointer (loc : Option Nat) (size ty : Nat) (normalized : Bool) (stride offset : Nat)
  | disableVertexAttribArray (loc : Option Nat)
  | drawArrays (mode : Nat) (first count : Int)
  | drawFPS
deriving DecidableEq

/-- Function flateBytes of main.go: decompress, log.Fatal on error
(modelled by none). -/
def flateBytes (env : Env) (v : List Nat) : Option (List Nat) :=
  env.inflate v

/-- GL commands issued for one piece by the initGL loop: generate two
buffers, bind and upload the vertex stream, bind and upload the normal
stream (the vertex-count assignment issues no GL command). -/
def pieceCmds (nb : Nat) (vData nData : List Nat) : List GLCmd :=
  [GLCmd.genBuffer nb, GLCmd.genBuffer (nb + 1),
   GLCmd.bindBuffer glARRAY_BUFFER nb,
   GLCmd.bufferData glARRAY_BUFFER glSTATIC_DRAW vData,
   GLCmd.bindBuffer glARRAY_BUFFER (nb + 1),
   GLCmd.bufferData glARRAY_BUFFER glSTATIC_DRAW nData]

/-- The piece record as updated by the initGL loop. -/
def pieceUpd (nb : Nat) (vData : List Nat) (p : Piece) : Piece :=
  { p with verticies := nb, normals := nb + 1
           vertexCount := (vData.length : Int) / 4 / (coordsPerVertex : Int) }

/-- The per-piece loop of initGL: decompress both streams (fatal on
corruption, before any GL call for that piece), generate two buffers,
set the vertex count to len(vData)/4/coordsPerVertex, and upload both
streams.  Returns the trace emitted before returning or dying, and on
success the updated pieces plus the next fresh buffer handle. -/
def initPieces (env : Env) (nb : Nat) : List Piece → List GLCmd × Option (List Piece × Nat)
  | [] => ([], some ([], nb))
  | p :: ps =>
    match flateBytes env p.vertexData, flateBytes env p.normalData with
    | some vData, some nData =>
      match initPieces env (nb + 2) ps with
      | (t2, some (ps2, nb2)) => (pieceCmds nb vData nData ++ t2, some (pieceUpd nb vData p :: ps2, nb2))
      | (t2, none) => (pieceCmds nb vData nData ++ t2, none)
    | _, _ => ([], none)

/-- State after a fully successful initGL: program handle set, pieces
replaced by the populated ones, buffer counter advanced, and the
attribute and uniform locations resolved. -/
def readyState (env : Env) (prog : Nat) (ps2 : List Piece) (nb2 : Nat) (s : GState) : GState :=
  { s with
    program := prog
    pieces := ps2
    nextBuffer := nb2
    position := some (env.getAttribLocation prog ShaderVar.position)
    normal := some (env.getAttribLocation prog ShaderVar.normal)
    lightDirection := some (env.getUniformLocation prog ShaderVar.lightDirection)
    lightAmbientColor := some (env.getUniformLocation prog ShaderVar.lightAmbientColor)
    lightDiffuseColor := some (env.getUniformLocation prog ShaderVar.lightDiffuseColor)
    materialAmbientFactor := some (env.getUniformLocation prog ShaderVar.materialAmbientFactor)
    materialDiffuseFactor := some (env.getUniformLocation prog ShaderVar.materialDiffuseFactor)
    model := some (env.getUniformLocation prog ShaderVar.model)
    view := some (env.getUniformLocation prog ShaderVar.view)
    projection := some (env.getUniformLocation prog ShaderVar.projection) }

/-- Function initGL of main.go: enable depth test, create the shader
program (on failure log and return, leaving everything untouched and the
program at the Go zero value), populate every piece, resolve the
attribute and uniform locations, and (initMVP) use the program. -/
def initGL (env : Env) (s : GState) : List GLCmd × Option GState :=
  match env.createProgram with
  | none => ([GLCmd.enable glDEPTH_TEST], some { s with program := 0 })
  | some prog =>
    match initPieces env s.nextBuffer s.pieces with
    | (t, none) => (GLCmd.enable glDEPTH_TEST :: t, none)
    | (t, some (ps2, nb2)) =>
      (GLCmd.enable glDEPTH_TEST :: t ++ [GLCmd.useProgram prog],
       some (readyState env prog ps2 nb2 s))

/-- Function touch of main.go: store the latest touch location. -/
def touch (x y : ℚ) (s : GState) : GState :=
  { s with touchX := x, touchY := y }

/-- Camera eye passed to LookAt by draw: frac = x / width,
y = 5 sin(2 pi frac), z = 5 cos(2 pi frac), eye = {0, y, -z}. -/
def cameraEye (env : Env) (x : ℚ) : Vec3 :=
  let frac := x / env.width
  let y := 5 * env.sin (2 * env.pi * frac)
  let z := 5 * env.cos (2 * env.pi * frac)
  (0, y, -z)

/-- Written from the words of the spec, for comparison with cameraEye:
cameraX = 0, cameraY = 5 sin(2 pi fraction), cameraZ = 5 cos(2 pi
fraction), with fraction = x / surfaceWidth, as the eye of the look-at
matrix. -/
def specCameraEye (env : Env) (x : ℚ) : Vec3 :=
  (0, 5 * env.sin (2 * env.pi * (x / env.width)),
      5 * env.cos (2 * env.pi * (x / env.width)))

/-- Projection matrix of draw: Perspective(pi/4, width/height, 0.1, 200). -/
def mProjOf (env : Env) : Mat4 :=
  Mat4.perspective (env.pi / 4) (env.width / env.height) (1/10) 200

/-- View matrix of draw: LookAt(eye, {0,0,0}, {-1,0,0}). -/
def mViewOf (env : Env) (s : GState) : Mat4 :=
  Mat4.lookAt (cameraEye env s.touchX) (0, 0, 0) (-1, 0, 0)

/-- Model scale of draw: touchLoc.Y / geom.Height + 0.5. -/
def scaleOf (env : Env) (y : ℚ) : ℚ :=
  y / env.height + 1/2

/-- Model matrix of draw: identity uniformly scaled by scaleOf. -/
def mModelOf (env : Env) (s : GState) : Mat4 :=
  Mat4.scaled Mat4.identity (scaleOf env s.touchY) (scaleOf env s.touchY) (scaleOf env s.touchY)

/-- The per-piece loop of draw: write the piece color to both light
color uniforms, bind and describe both buffers, and issue the
triangle-list draw call for vertexCount vertices. -/
def drawPieces (s : GState) : List Piece → List GLCmd
  | [] => []
  | p :: ps =>
    GLCmd.writeVec4 s.lightDiffuseColor p.color ::
    GLCmd.writeVec4 s.lightAmbientColor p.color ::
    GLCmd.bindBuffer glARRAY_BUFFER p.verticies ::
    GLCmd.vertexAttribPointer s.position coordsPerVertex glFLOAT false 0 0 ::
    GLCmd.bindBuffer glARRAY_BUFFER p.normals ::
    GLCmd.vertexAttribPointer s.normal coordsPerVertex glFLOAT false 0 0 ::
    GLCmd.drawArrays glTRIANGLES 0 p.vertexCount ::
    drawPieces s ps

/-- The unconditional body of draw after the initialization check:
clear, use the program, write the three matrices and the fixed lighting
uniforms, enable the attribute arrays, loop over the pieces, disable
the arrays, and draw the FPS overlay. -/
def drawBody (env : Env) (s : GState) : List GLCmd :=
  GLCmd.clearColor 0 0 0 1 ::
  GLCmd.clear (glDEPTH_BUFFER_BIT ||| glCOLOR_BUFFER_BIT) ::
  GLCmd.useProgram s.program ::
  GLCmd.writeMat4 s.projection (mProjOf env) ::
  GLCmd.writeMat4 s.view (mViewOf env s) ::
  GLCmd.writeMat4 s.model (mModelOf env s) ::
  GLCmd.uniform3f s.lightDirection (1/2) (1/2) 0 ::
  GLCmd.uniform4f s.materialDiffuseFactor (8/10) (8/10) (8/10) 1 ::
  GLCmd.uniform4f s.materialAmbientFactor (1/2) (1/2) (1/2) (1/2) ::
  GLCmd.enableVertexAttribArray s.normal ::
  GLCmd.enableVertexAttribArray s.position ::
  (drawPieces s s.pieces ++
   [GLCmd.disableVertexAttribArray s.normal,
    GLCmd.disableVertexAttribArray s.position,
    GLCmd.drawFPS])

/-- Function draw of main.go: if the program handle is the zero
sentinel, attempt initGL (dying there on asset corruption); then run
the draw body unconditionally on whatever state resulted. -/
def draw (env : Env) (s : GState) : List GLCmd × Option GState :=
  match (if s.program = 0 then initGL env s else ([], some s)) with
  | (t1, none) => (t1, none)
  | (t1, some s1) => (t1 ++ drawBody env s1, some s1)

/-- Iterated frames: draw once per environment in the list, stopping if
the process dies. -/
def drawN (envs : List Env) (s : GState) : List GLCmd × Option GState :=
  match envs with
  | [] => ([], some s)
  | e :: es =>
    match draw e s with
    | (t, none) => (t, none)
    | (t, some s1) =>
      match drawN es s1 with
      | (t2, r) => (t ++ t2, r)

/-- Predicate picking the draw calls out of a trace. -/
def isDrawCall : GLCmd → Bool
  | GLCmd.drawArrays _ _ _ => true
  | _ => false

/-- The draw calls of a trace, in order. -/
def drawCalls (t : List GLCmd) : List GLCmd :=
  t.filter isDrawCall

/-- Predicate picking the buffer allocations out of a trace. -/
def isGenBuffer : GLCmd → Bool
  | GLCmd.genBuffer _ => true
  | _ => false

/-- Number of GL buffer allocations in a trace. -/
def countGen (t : List GLCmd) : Nat :=
  (t.filter isGenBuffer).length

/-- Buffer allocations a state can still cause: 2 per piece while the
program handle is the sentinel, none once initialization completed. -/
def allocPotential (s : GState) : Nat :=
  if s.program = 0 then 2 * s.pieces.length else 0

/-- Relation between a piece before and after the initGL loop ran on it
successfully: data and color untouched, vertex count computed from the
decompressed vertex stream as len / 4 / coordsPerVertex. -/
def PieceInit (env : Env) (p q : Piece) : Prop :=
  ∃ v n, flateBytes env p.vertexData = some v ∧ flateBytes env p.normalData = some n ∧
    q.vertexData = p.vertexData ∧ q.normalData = p.normalData ∧
    q.color = p.color ∧
    q.vertexCount = (v.length : Int) / 4 / (coordsPerVertex : Int)

/-- Concrete asset assignment: every piece carries empty compressed
streams. -/
def dA : Fin 12 → List Nat × List Nat := fun _ => ([], [])

/-- Concrete asset assignment whose vertex and normal streams differ. -/
def dD : Fin 12 → List Nat × List Nat := fun _ => ([0], [1])

/-- Trivial location resolver for concrete environments. -/
def locZero : Nat → ShaderVar → Nat := fun _ _ => 0

/-- Concrete healthy environment: decompression always yields 24 bytes,
program creation succeeds with handle 1. -/
def envA : Env :=
  { inflate := fun _ => some (List.replicate 24 0)
    createProgram := some 1
    getAttribLocation := locZero
    getUniformLocation := locZero
    width := 100
    height := 100
    sin := fun _ => 0
    cos := fun _ => 1
    pi := 355/113 }

/-- Concrete environment whose shader program creation fails. -/
def envB : Env := { envA with createProgram := none }

/-- Concrete environment whose decompression always fails (corrupt
embedded data). -/
def envC : Env := { envA with inflate := fun _ => none }

/-- Concrete environment decompressing the vertex stream to 13 bytes
(not a multiple of 12) and the normal stream to 7 bytes (a different
length). -/
def envD : Env :=
  { envA with
    inflate := fun b => if b = [0] then some (List.replicate 13 0) else some (List.replicate 7 0) }

/-- Concrete state past initialization (Ready), with an empty piece
list to keep traces small. -/
def stReady : GState :=
  { program := 1, position := some 0, normal := some 0
    lightDirection := some 0, lightAmbientColor := some 0
    lightDiffuseColor := some 0, materialAmbientFactor := some 0
    materialDiffuseFactor := some 0, model := some 0, view := some 0
    projection := some 0, touchX := 0, touchY := 0
    pieces := [], nextBuffer := 1 }

/-- A second Ready state agreeing with stReady on the touch location
but differing in every other respect that could matter. -/
def stReady2 : GState :=
  { stReady with program := 7, position := some 5, pieces := pieces dA, nextBuffer := 42 }

/-- The state produced by a successful initGL run in envA. -/
def sA : GState := ((initGL envA (initState dA)).2).getD (initState dA)

lemma initPieces_sound (env : Env) :
    ∀ (ps : List Piece) (nb : Nat) (t : List GLCmd) (ps2 : List Piece) (nb2 : Nat),
      initPieces env nb ps = (t, some (ps2, nb2)) →
      List.Forall₂ (PieceInit env) ps ps2 := by
  intro ps
  induction ps with
  | nil =>
    intro nb t ps2 nb2 h
    simp only [initPieces, Prod.mk.injEq, Option.some.injEq] at h
    obtain ⟨-, h2⟩ := h
    obtain ⟨rfl, -⟩ : ([] : List Piece) = ps2 ∧ nb = nb2 := Prod.mk.injEq .. ▸ h2
    exact List.Forall₂.nil
  | cons p ps ih =>
    intro nb t ps2 nb2 h
    simp only [initPieces] at h
    cases hv : flateBytes env p.vertexData with
    | none => rw [hv] at h; simp at h
    | some v =>
      cases hn : flateBytes env p.normalData with
      | none => rw [hv, hn] at h; simp at h
      | some n =>
        rw [hv, hn] at h
        cases hrec : initPieces env (nb + 2) ps with
        | mk t2 r =>
          cases r with
          | none => rw [hrec] at h; simp at h
          | some out =>
            obtain ⟨ps3, nb3⟩ := out
            rw [hrec] at h
            simp only [Prod.mk.injEq, Option.some.injEq] at h
            obtain ⟨-, h2, -⟩ := h
            subst h2
            refine List.Forall₂.cons ⟨v, n, hv, hn, rfl, rfl, rfl, rfl⟩ ?_
            exact ih _ _ _ _ hrec

lemma initPieces_corrupt (env : Env) :
    ∀ (ps : List Piece) (nb : Nat),
      (∃ p ∈ ps, flateBytes env p.vertexData = none) →
      (initPieces env nb ps).2 = none := by
  intro ps
  induction ps with
  | nil => intro nb h; simp at h
  | cons p ps ih =>
    intro nb h
    simp only [initPieces]
    cases hv : flateBytes env p.vertexData with
    | none => simp
    | some v =>
      cases hn : flateBytes env p.normalData with
      | none => simp
      | some n =>
        have hmem : ∃ q ∈ ps, flateBytes env q.vertexData = none := by
          rcases h with ⟨q, hq, hcor⟩
          rcases List.mem_cons.mp hq with rfl | hq2
          · exact absurd hv (by rw [hcor]; simp)
          · exact ⟨q, hq2, hcor⟩
        have := ih (nb + 2) hmem
        cases hrec : initPieces env (nb + 2) ps with
        | mk t2 r =>
          rw [hrec] at this
          simp only at this
          subst this
          simp

lemma countGen_append (a b : List GLCmd) : countGen (a ++ b) = countGen a + countGen b := by
  simp [countGen, List.filter_append]

lemma drawCalls_append (a b : List GLCmd) : drawCalls (a ++ b) = drawCalls a ++ drawCalls b := by
  simp [drawCalls, List.filter_append]

lemma countGen_pieceCmds (nb : Nat) (v n : List Nat) : countGen (pieceCmds nb v n) = 2 := rfl

lemma drawCalls_pieceCmds (nb : Nat) (v n : List Nat) : drawCalls (pieceCmds nb v n) = [] := rfl

lemma initPieces_isSome (env : Env) :
    ∀ (ps : List Piece) (nb : Nat),
      (∀ p ∈ ps, (flateBytes env p.vertexData).isSome ∧ (flateBytes env p.normalData).isSome) →
      ∃ t ps2 nb2, initPieces env nb ps = (t, some (ps2, nb2)) := by
  intro ps
  induction ps with
  | nil => intro nb _; exact ⟨[], [], nb, rfl⟩
  | cons p ps ih =>
    intro nb h
    obtain ⟨hv0, hn0⟩ := h p (List.mem_cons_self p ps)
    obtain ⟨v, hv⟩ := Option.isSome_iff_exists.mp hv0
    obtain ⟨n, hn⟩ := Option.isSome_iff_exists.mp hn0
    obtain ⟨t2, ps3, nb3, hrec⟩ := ih (nb + 2) fun q hq => h q (List.mem_cons_of_mem p hq)
    have heq : initPieces env nb (p :: ps) =
        (pieceCmds nb v n ++ t2, some (pieceUpd nb v p :: ps3, nb3)) := by
      simp only [initPieces]
      rw [hv, hn, hrec]
    exact ⟨_, _, _, heq⟩

lemma drawCalls_drawPieces (s : GState) :
    ∀ ps : List Piece,
      drawCalls (drawPieces s ps) = ps.map fun p => GLCmd.drawArrays glTRIANGLES 0 p.vertexCount := by
  intro ps
  induction ps with
  | nil => simp [drawPieces, drawCalls]
  | cons p ps ih => simp [drawPieces, drawCalls, isDrawCall] at ih ⊢; exact ih

lemma countGen_drawPieces (s : GState) :
    ∀ ps : List Piece, countGen (drawPieces s ps) = 0 := by
  intro ps
  induction ps with
  | nil => simp [drawPieces, countGen]
  | cons p ps ih => simp [drawPieces, countGen, isGenBuffer] at ih ⊢; exact ih

lemma drawCalls_drawBody (env : Env) (s : GState) :
    drawCalls (drawBody env s) = s.pieces.map fun p => GLCmd.drawArrays glTRIANGLES 0 p.vertexCount := by
  have h1 := drawCalls_drawPieces s s.pieces
  simp [drawBody, drawCalls, isDrawCall] at h1 ⊢
  exact h1

lemma countGen_drawBody (env : Env) (s : GState) : countGen (drawBody env s) = 0 := by
  have h1 := countGen_drawPieces s s.pieces
  simp [drawBody, countGen, isGenBuffer] at h1 ⊢
  exact h1

lemma draw_ready (env : Env) (s : GState) (h : s.program ≠ 0) :
    draw env s = (drawBody env s, some s) := by
  simp [draw, h]

lemma draw_of_initGL_none (env : Env) (s : GState) (t : List GLCmd)
    (h0 : s.program = 0) (h : initGL env s = (t, none)) :
    draw env s = (t, none) := by
  simp [draw, h0, h]

lemma draw_of_initGL_some (env : Env) (s s1 : GState) (t : List GLCmd)
    (h0 : s.program = 0) (h : initGL env s = (t, some s1)) :
    draw env s = (t ++ drawBody env s1, some s1) := by
  simp [draw, h0, h]

lemma initGL_of_createFail (env : Env) (s : GState) (hc : env.createProgram = none) :
    initGL env s = ([GLCmd.enable glDEPTH_TEST], some { s with program := 0 }) := by
  simp [initGL, hc]

lemma initGL_of_pieces (env : Env) (s : GState) (prog : Nat) (t : List GLCmd)
    (ps2 : List Piece) (nb2 : Nat) (hc : env.createProgram = some prog)
    (hrec : initPieces env s.nextBuffer s.pieces = (t, some (ps2, nb2))) :
    initGL env s =
      (GLCmd.enable glDEPTH_TEST :: t ++ [GLCmd.useProgram prog],
       some (readyState env prog ps2 nb2 s)) := by
  simp [initGL, hc, hrec]

lemma initGL_of_pieces_fatal (env : Env) (s : GState) (prog : Nat) (t : List GLCmd)
    (hc : env.createProgram = some prog)
    (hrec : initPieces env s.nextBuffer s.pieces = (t, none)) :
    initGL env s = (GLCmd.enable glDEPTH_TEST :: t, none) := by
  simp [initGL, hc, hrec]

lemma initGL_some_inv (env : Env) (s s2 : GState) (prog : Nat) (t : List GLCmd)
    (hc : env.createProgram = some prog) (h : initGL env s = (t, some s2)) :
    s2.program = prog ∧ List.Forall₂ (PieceInit env) s.pieces s2.pieces := by
  rw [initGL, hc] at h
  cases hrec : initPieces env s.nextBuffer s.pieces with
  | mk t1 r =>
    cases r with
    | none => rw [hrec] at h; simp at h
    | some out =>
      obtain ⟨ps2, nb2⟩ := out
      rw [hrec] at h
      simp only [Prod.mk.injEq, Option.some.injEq] at h
      obtain ⟨-, rfl⟩ := h
      exact ⟨rfl, initPieces_sound env _ _ _ _ _ hrec⟩

lemma eta_of_program_zero (s : GState) (h : s.program = 0) :
    { s with program := 0 } = s := by
  cases s
  simp_all

lemma countGen_cons (c : GLCmd) (t : List GLCmd) (h : isGenBuffer c = false) :
    countGen (c :: t) = countGen t := by
  simp [countGen, List.filter_cons, h]

lemma countGen_nil : countGen [] = 0 := rfl

lemma countGen_enable_cons (c : Nat) (t : List GLCmd) :
    countGen (GLCmd.enable c :: t) = countGen t := rfl

lemma countGen_useProgram_cons (p : Nat) (t : List GLCmd) :
    countGen (GLCmd.useProgram p :: t) = countGen t := rfl

lemma drawN_cons_none (e : Env) (es : List Env) (s : GState) (t : List GLCmd)
    (h : draw e s = (t, none)) :
    drawN (e :: es) s = (t, none) := by
  simp [drawN, h]

lemma drawN_cons_some (e : Env) (es : List Env) (s s1 : GState) (t : List GLCmd)
    (h : draw e s = (t, some s1)) :
    drawN (e :: es) s = (t ++ (drawN es s1).1, (drawN es s1).2) := by
  simp only [drawN, h]

lemma initPieces_no_drawCalls (env : Env) :
    ∀ (ps : List Piece) (nb : Nat), drawCalls (initPieces env nb ps).1 = [] := by
  intro ps
  induction ps with
  | nil => intro nb; simp [initPieces, drawCalls]
  | cons p ps ih =>
    intro nb
    simp only [initPieces]
    cases hv : flateBytes env p.vertexData with
    | none => simp [drawCalls]
    | some v =>
      cases hn : flateBytes env p.normalData with
      | none => simp [drawCalls]
      | some n =>
        cases hrec : initPieces env (nb + 2) ps with
        | mk t2 r =>
          have ht2 : drawCalls t2 = [] := by
            have := ih (nb + 2); rw [hrec] at this; exact this
          cases r with
          | none => simp [drawCalls_append, drawCalls_pieceCmds, ht2]
          | some out => simp [drawCalls_append, drawCalls_pieceCmds, ht2]

lemma initPieces_countGen (env : Env) :
    ∀ (ps : List Piece) (nb : Nat), countGen (initPieces env nb ps).1 ≤ 2 * ps.length := by
  intro ps
  induction ps with
  | nil => intro nb; simp [initPieces, countGen]
  | cons p ps ih =>
    intro nb
    simp only [initPieces]
    cases hv : flateBytes env p.vertexData with
    | none => simp [countGen]
    | some v =>
      cases hn : flateBytes env p.normalData with
      | none => simp [countGen]
      | some n =>
        cases hrec : initPieces env (nb + 2) ps with
        | mk t2 r =>
          have ht2 : countGen t2 ≤ 2 * ps.length := by
            have := ih (nb + 2); rw [hrec] at this; exact this
          cases r with
          | none =>
            simp only [countGen_append, countGen_pieceCmds, List.length_cons]
            omega
          | some out =>
            simp only [countGen_append, countGen_pieceCmds, List.length_cons]
            omega

lemma draw_countGen_step (env : Env) (s : GState)
    (hw : ∀ p, env.createProgram = some p → p ≠ 0) :
    (∀ t s2, draw env s = (t, some s2) → countGen t + allocPotential s2 ≤ allocPotential s) ∧
    (∀ t, draw env s = (t, none) → countGen t ≤ allocPotential s) := by
  by_cases hp : s.program = 0
  · cases hc : env.createProgram with
    | none =>
      have h1 : initGL env s = ([GLCmd.enable glDEPTH_TEST], some s) := by
        rw [initGL_of_createFail env s hc, eta_of_program_zero s hp]
      have h2 := draw_of_initGL_some env s s _ hp h1
      constructor
      · intro t s2 h3
        rw [h2] at h3
        simp only [Prod.mk.injEq, Option.some.injEq] at h3
        obtain ⟨rfl, rfl⟩ := h3
        have h4 : countGen ([GLCmd.enable glDEPTH_TEST] ++ drawBody env s) = 0 := by
          rw [countGen_append, countGen_drawBody, countGen_enable_cons, countGen_nil]
        omega
      · intro t h3
        rw [h2] at h3
        simp at h3
    | some prog =>
      cases hrec : initPieces env s.nextBuffer s.pieces with
      | mk t1 r =>
        have hbound : countGen t1 ≤ 2 * s.pieces.length := by
          have h5 := initPieces_countGen env s.pieces s.nextBuffer
          rw [hrec] at h5
          exact h5
        cases r with
        | none =>
          have h1 := initGL_of_pieces_fatal env s prog t1 hc hrec
          have h2 := draw_of_initGL_none env s _ hp h1
          constructor
          · intro t s2 h3; rw [h2] at h3; simp at h3
          · intro t h3
            rw [h2] at h3
            simp only [Prod.mk.injEq] at h3
            obtain ⟨rfl, -⟩ := h3
            rw [countGen_cons (GLCmd.enable glDEPTH_TEST) t1 rfl]
            simpa [allocPotential, hp] using hbound
        | some out =>
          obtain ⟨ps2, nb2⟩ := out
          have h1 := initGL_of_pieces env s prog t1 ps2 nb2 hc hrec
          have h2 := draw_of_initGL_some env s _ _ hp h1
          have hprogne : (readyState env prog ps2 nb2 s).program ≠ 0 := hw prog hc
          constructor
          · intro t s2 h3
            rw [h2] at h3
            simp only [Prod.mk.injEq, Option.some.injEq] at h3
            obtain ⟨rfl, rfl⟩ := h3
            have hc1 : countGen ((GLCmd.enable glDEPTH_TEST :: t1 ++ [GLCmd.useProgram prog]) ++
                drawBody env (readyState env prog ps2 nb2 s)) = countGen t1 := by
              simp only [List.cons_append, List.append_assoc, countGen_enable_cons,
                countGen_append, countGen_useProgram_cons, countGen_nil, countGen_drawBody]
              omega
            rw [hc1]
            simp only [allocPotential, hp, if_true, if_neg hprogne]
            omega
          · intro t h3; rw [h2] at h3; simp at h3
  · have h2 := draw_ready env s hp
    constructor
    · intro t s2 h3
      rw [h2] at h3
      simp only [Prod.mk.injEq, Option.some.injEq] at h3
      obtain ⟨rfl, rfl⟩ := h3
      rw [countGen_drawBody]
      simp
    · intro t h3; rw [h2] at h3; simp at h3

lemma drawN_countGen (envs : List Env) :
    ∀ s : GState, (∀ e ∈ envs, ∀ p, e.createProgram = some p → p ≠ 0) →
      countGen (drawN envs s).1 ≤ allocPotential s := by
  induction envs with
  | nil => intro s _; simp [drawN, countGen]
  | cons e es ih =>
    intro s hw
    have hstep := draw_countGen_step e s (hw e (List.mem_cons_self e es))
    cases hdraw : draw e s with
    | mk t r =>
      cases r with
      | none =>
        rw [drawN_cons_none e es s t hdraw]
        exact hstep.2 t hdraw
      | some s1 =>
        have h1 := hstep.1 t s1 hdraw
        have h2 := ih s1 fun f hf => hw f (List.mem_cons_of_mem e hf)
        rw [drawN_cons_some e es s s1 t hdraw]
        dsimp only
        rw [countGen_append]
        omega

/-- C1 (counterexample): the claim says the camera position
(0, 5 sin(2 pi f), 5 cos(2 pi f)) is the eye argument of the look-at
matrix; in the code the eye is (0, y, -z), so at fraction 0 the eye is
(0, 0, -5) while the claimed position is (0, 0, 5). -/
theorem cameraEye_ne_specCameraEye :
    cameraEye envA 0 = (0, 0, -5) ∧ specCameraEye envA 0 = (0, 0, 5) ∧
    cameraEye envA 0 ≠ specCameraEye envA 0 := by
  have h1 : cameraEye envA 0 = (0, 0, -5) := by norm_num [cameraEye, envA]
  have h2 : specCameraEye envA 0 = (0, 0, 5) := by norm_num [specCameraEye, envA]
  refine ⟨h1, h2, ?_⟩
  rw [h1, h2]
  intro hq
  have h3 : (-5 : ℚ) = 5 := congrArg (fun p => p.2.2) hq
  norm_num at h3

/-- C1 (amended): for every frame drawn from a Ready state, the eye
argument of the look-at view matrix written to the view uniform is
(0, 5 sin(2 pi f), -(5 cos(2 pi f))) with f = x / surfaceWidth: the
code computes z = 5 cos(2 pi f) and passes its negation as the eye z
component. -/
theorem draw_view_eye (env : Env) (s : GState) (h : s.program ≠ 0) :
    ((draw env s).1)[4]? =
      some (GLCmd.writeMat4 s.view (Mat4.lookAt
        (0, 5 * env.sin (2 * env.pi * (s.touchX / env.width)),
         -(5 * env.cos (2 * env.pi * (s.touchX / env.width))))
        (0, 0, 0) (-1, 0, 0))) := by
  rw [draw_ready env s h]
  rfl

/-- C1 (witness): the amended view-matrix fact evaluated in a concrete
Ready state. -/
theorem draw_view_eye_witness :
    ((draw envA stReady).1)[4]? =
      some (GLCmd.writeMat4 stReady.view (Mat4.lookAt
        (0, 5 * envA.sin (2 * envA.pi * (stReady.touchX / envA.width)),
         -(5 * envA.cos (2 * envA.pi * (stReady.touchX / envA.width))))
        (0, 0, 0) (-1, 0, 0))) :=
  draw_view_eye envA stReady (by decide)

/-- C2: after a successful initialization (shader created, no fatal),
every piece's stored vertex count equals its decompressed vertex byte
length divided by 12, exactly so whenever that length is a multiple of
12. -/
theorem vertexCount_div12 (env : Env) (s s2 : GState) (prog : Nat) (t : List GLCmd)
    (hc : env.createProgram = some prog) (h : initGL env s = (t, some s2)) :
    List.Forall₂ (fun p q => ∃ v, flateBytes env p.vertexData = some v ∧
      q.vertexCount = (v.length : Int) / 12 ∧
      ((12:Int) ∣ (v.length : Int) → 12 * q.vertexCount = (v.length : Int)))
      s.pieces s2.pieces := by
  have h2 := (initGL_some_inv env s s2 prog t hc h).2
  refine h2.imp ?_
  intro p q hpq
  obtain ⟨v, n, hv, hn, -, -, -, hcount⟩ := hpq
  refine ⟨v, hv, ?_, ?_⟩
  · rw [hcount]; simp only [coordsPerVertex]; omega
  · intro hdvd; rw [hcount]; simp only [coordsPerVertex]; omega

/-- C2 (witness): the vertex-count invariant evaluated on a concrete
successful initialization. -/
theorem vertexCount_div12_witness :
    List.Forall₂ (fun p q => ∃ v, flateBytes envA p.vertexData = some v ∧
      q.vertexCount = (v.length : Int) / 12 ∧
      ((12:Int) ∣ (v.length : Int) → 12 * q.vertexCount = (v.length : Int)))
      (initState dA).pieces sA.pieces :=
  vertexCount_div12 envA (initState dA) sA 1 (initGL envA (initState dA)).1 rfl (by rfl)

/-- C8: the per-frame model scale is y / surfaceHeight + 0.5, giving
0.5 at y = 0, 1.5 at y = surfaceHeight, and 1 at y = surfaceHeight/2,
and this scale is what the frame writes to the model uniform as a
uniform scaling of the identity. -/
theorem scale_spec (env : Env) (h : env.height ≠ 0) :
    (∀ y : ℚ, scaleOf env y = y / env.height + 1/2) ∧
    scaleOf env 0 = 1/2 ∧
    scaleOf env env.height = 3/2 ∧
    scaleOf env (env.height / 2) = 1 ∧
    ∀ s : GState, s.program ≠ 0 →
      ((draw env s).1)[5]? =
        some (GLCmd.writeMat4 s.model
          (Mat4.scaled Mat4.identity (scaleOf env s.touchY) (scaleOf env s.touchY)
            (scaleOf env s.touchY))) := by
  refine ⟨fun y => rfl, ?_, ?_, ?_, ?_⟩
  · simp [scaleOf]
  · rw [scaleOf, div_self h]; norm_num
  · rw [scaleOf]; field_simp; ring
  · intro s hs
    rw [draw_ready env s hs]
    rfl

/-- C8 (witness): the scale facts evaluated in a concrete environment
and Ready state. -/
theorem scale_spec_witness :
    scaleOf envA 0 = 1/2 ∧ scaleOf envA envA.height = 3/2 ∧
    scaleOf envA (envA.height / 2) = 1 ∧
    ((draw envA stReady).1)[5]? =
      some (GLCmd.writeMat4 stReady.model
        (Mat4.scaled Mat4.identity (scaleOf envA stReady.touchY) (scaleOf envA stReady.touchY)
          (scaleOf envA stReady.touchY))) := by
  have h := scale_spec envA (by norm_num [envA])
  exact ⟨h.2.1, h.2.2.1, h.2.2.2.1, h.2.2.2.2 stReady (by decide)⟩

/-- C9: the transform triple is a pure function of the touch
coordinates and the environment (surface dimensions and math library):
two states agreeing on touch x and y yield identical projection, view,
and model matrices, whatever their other fields hold. -/
theorem transforms_deterministic (env : Env) (s1 s2 : GState)
    (hx : s1.touchX = s2.touchX) (hy : s1.touchY = s2.touchY) :
    mProjOf env = mProjOf env ∧ mViewOf env s1 = mViewOf env s2 ∧
    mModelOf env s1 = mModelOf env s2 := by
  refine ⟨rfl, ?_, ?_⟩
  · simp [mViewOf, cameraEye, hx]
  · simp [mModelOf, scaleOf, hy]

/-- C9 (witness): two Ready states differing in program handle, piece
list, locations and buffer counter but agreeing on the touch point
produce the same matrices. -/
theorem transforms_deterministic_witness :
    mProjOf envA = mProjOf envA ∧ mViewOf envA stReady = mViewOf envA stReady2 ∧
    mModelOf envA stReady = mModelOf envA stReady2 :=
  transforms_deterministic envA stReady stReady2 rfl rfl

lemma mem_right_of_forall₂ {α β : Type} {R : α → β → Prop} {P : β → Prop} :
    ∀ {l1 : List α} {l2 : List β}, List.Forall₂ R l1 l2 →
      (∀ a ∈ l1, ∀ b, R a b → P b) → ∀ b ∈ l2, P b := by
  intro l1 l2 hf
  induction hf with
  | nil => intro _ b hb; simp at hb
  | @cons a b l1 l2 hr hf2 ih =>
    intro hall b2 hb2
    rcases List.mem_cons.mp hb2 with rfl | hmem
    · exact hall a (List.mem_cons_self a l1) b2 hr
    · exact ih (fun x hx => hall x (List.mem_cons_of_mem a hx)) b2 hmem

/-- C3 (counterexample): the first declared piece (the body) has the
fur color (0, 0.537, 0.8, 1), not the claimed skin color
(0.761, 0.442, 0.180, 1), which belongs to piece 1 (the tail). -/
theorem piece0_color_counterexample :
    ((pieces dA).head?).map Piece.color = some ((0 : ℚ), (537/1000 : ℚ), (8/10 : ℚ), (1 : ℚ)) ∧
    ((0 : ℚ), (537/1000 : ℚ), (8/10 : ℚ), (1 : ℚ)) ≠
      ((761/1000 : ℚ), (442/1000 : ℚ), (180/1000 : ℚ), (1 : ℚ)) := by
  refine ⟨rfl, ?_⟩
  intro hq
  have h3 : (0 : ℚ) = 761/1000 := congrArg (fun p => p.1) hq
  norm_num at h3

/-- C3 (amended): there are exactly 12 pieces and piece 0's color is
(0, 0.537, 0.8, 1); when the shader is created with a non-sentinel
handle and every embedded stream decompresses to a positive multiple of
12 bytes, initialization succeeds, every stored vertex count is
positive, and a frame drawn from the resulting state issues exactly the
12 triangle-list draw calls, one per piece in declaration order. -/
theorem pieces_draw_order (env : Env) (d : Fin 12 → List Nat × List Nat) (prog : Nat)
    (hc : env.createProgram = some prog) (hprog : prog ≠ 0)
    (hassets : ∀ p ∈ pieces d, ∃ v n, flateBytes env p.vertexData = some v ∧
      flateBytes env p.normalData = some n ∧ 0 < v.length ∧ 12 ∣ v.length) :
    (pieces d).length = 12 ∧
    ((pieces d).head?).map Piece.color = some ((0 : ℚ), (537/1000 : ℚ), (8/10 : ℚ), (1 : ℚ)) ∧
    ∃ s2, (initGL env (initState d)).2 = some s2 ∧
      s2.pieces.length = 12 ∧
      (∀ q ∈ s2.pieces, 0 < q.vertexCount) ∧
      drawCalls (draw env s2).1 =
        s2.pieces.map (fun q => GLCmd.drawArrays glTRIANGLES 0 q.vertexCount) ∧
      (draw env s2).2 = some s2 := by
  have hall : ∀ p ∈ (initState d).pieces,
      (flateBytes env p.vertexData).isSome ∧ (flateBytes env p.normalData).isSome := by
    intro p hp
    obtain ⟨v, n, hv, hn, -, -⟩ := hassets p hp
    exact ⟨by rw [hv]; rfl, by rw [hn]; rfl⟩
  obtain ⟨t, ps2, nb2, hrec⟩ :=
    initPieces_isSome env (initState d).pieces (initState d).nextBuffer hall
  have heq := initGL_of_pieces env (initState d) prog t ps2 nb2 hc hrec
  have h2 := initPieces_sound env (initState d).pieces (initState d).nextBuffer t ps2 nb2 hrec
  have hlen : ps2.length = 12 := by
    have h3 := h2.length_eq
    simpa using h3.symm
  have hpos : ∀ q ∈ ps2, 0 < q.vertexCount := by
    refine mem_right_of_forall₂ h2 ?_
    intro p hp q hpq
    obtain ⟨v, n, hv, hn, -, -, -, hcount⟩ := hpq
    obtain ⟨v2, n2, hv2, hn2, hvlen, hdvd⟩ := hassets p hp
    have hvv : v = v2 := by
      rw [hv] at hv2
      exact Option.some.inj hv2
    subst hvv
    rw [hcount]
    simp only [coordsPerVertex]
    omega
  set rs := readyState env prog ps2 nb2 (initState d) with hrs
  have hrsprog : rs.program ≠ 0 := hprog
  have hready := draw_ready env rs hrsprog
  refine ⟨rfl, rfl, rs, by rw [heq], hlen, hpos, ?_, by rw [hready]⟩
  rw [hready]
  exact drawCalls_drawBody env rs

/-- C3 (witness): the amended end-to-end scenario evaluated in a
concrete healthy environment. -/
theorem pieces_draw_order_witness :
    (pieces dA).length = 12 ∧
    ((pieces dA).head?).map Piece.color = some ((0 : ℚ), (537/1000 : ℚ), (8/10 : ℚ), (1 : ℚ)) ∧
    ∃ s2, (initGL envA (initState dA)).2 = some s2 ∧
      s2.pieces.length = 12 ∧
      (∀ q ∈ s2.pieces, 0 < q.vertexCount) ∧
      drawCalls (draw envA s2).1 =
        s2.pieces.map (fun q => GLCmd.drawArrays glTRIANGLES 0 q.vertexCount) ∧
      (draw envA s2).2 = some s2 :=
  pieces_draw_order envA dA 1 rfl (by decide)
    (fun p _ => ⟨List.replicate 24 0, List.replicate 24 0, rfl, rfl, by simp, by norm_num⟩)

/-- C4 (counterexample): with shader creation failing forever (Ready
never reached), a frame still clears the buffers and still issues a
triangle draw call (with vertex count 0), contradicting the claim that
the loop is skipped entirely. -/
theorem draw_skip_counterexample :
    (draw envB (initState dA)).2 = some (initState dA) ∧
    GLCmd.clear (glDEPTH_BUFFER_BIT ||| glCOLOR_BUFFER_BIT) ∈ (draw envB (initState dA)).1 ∧
    GLCmd.drawArrays glTRIANGLES 0 0 ∈ (draw envB (initState dA)).1 := by
  have h1 : initGL envB (initState dA) = ([GLCmd.enable glDEPTH_TEST], some (initState dA)) := by
    rw [initGL_of_createFail envB (initState dA) rfl, eta_of_program_zero (initState dA) rfl]
  have h2 := draw_of_initGL_some envB (initState dA) (initState dA) _ rfl h1
  refine ⟨by rw [h2], ?_, ?_⟩
  · rw [h2]
    simp [drawBody]
  · rw [h2]
    simp [drawBody, drawPieces, initState, pieces, mkPiece]

/-- C4 (amended): in a frame where Ready was never reached because
shader creation failed, the draw loop is NOT skipped: the state stays
at the sentinel, the frame still clears, and it issues one draw call
per piece, each with vertex count 0 (buffers never populated), so
nothing is visibly rendered. -/
theorem draw_not_skipped (env : Env) (d : Fin 12 → List Nat × List Nat)
    (hc : env.createProgram = none) :
    (draw env (initState d)).2 = some (initState d) ∧
    GLCmd.clear (glDEPTH_BUFFER_BIT ||| glCOLOR_BUFFER_BIT) ∈ (draw env (initState d)).1 ∧
    drawCalls (draw env (initState d)).1 =
      List.replicate 12 (GLCmd.drawArrays glTRIANGLES 0 0) := by
  have h1 : initGL env (initState d) = ([GLCmd.enable glDEPTH_TEST], some (initState d)) := by
    rw [initGL_of_createFail env (initState d) hc, eta_of_program_zero (initState d) rfl]
  have h2 := draw_of_initGL_some env (initState d) (initState d) _ rfl h1
  refine ⟨by rw [h2], ?_, ?_⟩
  · rw [h2]
    simp [drawBody]
  · rw [h2, drawCalls_append, drawCalls_drawBody]
    rfl

/-- C4 (witness): the amended no-skip behavior evaluated in a concrete
environment with failing shader creation. -/
theorem draw_not_skipped_witness :
    (draw envB (initState dA)).2 = some (initState dA) ∧
    GLCmd.clear (glDEPTH_BUFFER_BIT ||| glCOLOR_BUFFER_BIT) ∈ (draw envB (initState dA)).1 ∧
    drawCalls (draw envB (initState dA)).1 =
      List.replicate 12 (GLCmd.drawArrays glTRIANGLES 0 0) :=
  draw_not_skipped envB dA rfl

/-- C5: if some piece's compressed vertex bytes fail to decompress, a
frame that attempts initialization dies there (log.Fatal, modelled by
the none result) and its trace contains no draw call for any piece. -/
theorem corrupt_fatal_no_draw (env : Env) (s : GState) (prog : Nat)
    (hc : env.createProgram = some prog) (hp : s.program = 0)
    (hcor : ∃ p ∈ s.pieces, flateBytes env p.vertexData = none) :
    (draw env s).2 = none ∧ drawCalls (draw env s).1 = [] := by
  have h1 := initPieces_corrupt env s.pieces s.nextBuffer hcor
  cases hrec : initPieces env s.nextBuffer s.pieces with
  | mk t r =>
    rw [hrec] at h1
    dsimp only at h1
    subst h1
    have h2 := initGL_of_pieces_fatal env s prog t hc hrec
    have h3 := draw_of_initGL_none env s _ hp h2
    have h4 := initPieces_no_drawCalls env s.pieces s.nextBuffer
    rw [hrec] at h4
    refine ⟨by rw [h3], ?_⟩
    rw [h3]
    have h5 : drawCalls (GLCmd.enable glDEPTH_TEST :: t) = drawCalls t := rfl
    rw [h5]
    exact h4

/-- C5 (witness): corrupting the embedded data of every piece makes the
first frame die during initialization with no draw call issued. -/
theorem corrupt_fatal_no_draw_witness :
    (draw envC (initState dA)).2 = none ∧ drawCalls (draw envC (initState dA)).1 = [] :=
  corrupt_fatal_no_draw envC (initState dA) 1 rfl rfl
    ⟨mkPiece (dA 0).1 (dA 0).2 gopherFur, by simp [initState, pieces], rfl⟩

/-- C6: if shader program creation fails, initGL returns with the
program handle still the zero sentinel and the state otherwise exactly
as before (no buffer allocated, no location resolved), and the next
draw runs initialization again (its trace starts with the depth-test
enable of initGL) and again leaves the program at the sentinel. -/
theorem shaderFail_state_unchanged (env : Env) (s : GState)
    (hc : env.createProgram = none) (hp : s.program = 0) :
    initGL env s = ([GLCmd.enable glDEPTH_TEST], some s) ∧
    countGen (initGL env s).1 = 0 ∧
    draw env s = (GLCmd.enable glDEPTH_TEST :: drawBody env s, some s) ∧
    ((draw env s).2).map GState.program = some 0 := by
  have h1 : initGL env s = ([GLCmd.enable glDEPTH_TEST], some s) := by
    rw [initGL_of_createFail env s hc, eta_of_program_zero s hp]
  have h2 := draw_of_initGL_some env s s _ hp h1
  refine ⟨h1, by rw [h1]; rfl, by rw [h2]; rfl, ?_⟩
  rw [h2]
  simp [hp]

/-- C6 (witness): the shader-failure behavior evaluated in a concrete
environment whose program creation fails. -/
theorem shaderFail_state_unchanged_witness :
    initGL envB (initState dA) = ([GLCmd.enable glDEPTH_TEST], some (initState dA)) ∧
    countGen (initGL envB (initState dA)).1 = 0 ∧
    draw envB (initState dA) =
      (GLCmd.enable glDEPTH_TEST :: drawBody envB (initState dA), some (initState dA)) ∧
    ((draw envB (initState dA)).2).map GState.program = some 0 :=
  shaderFail_state_unchanged envB (initState dA) rfl rfl

/-- C7: across any sequence of frames from the initial state (with the
external program creator never handing out the sentinel handle as a
success), at most 2 buffers per piece are ever allocated; and once the
program handle is non-sentinel, a draw runs no initialization at all:
its trace is exactly the draw body, which allocates nothing, and the
state is unchanged. -/
theorem buffers_alloc_once (envs : List Env) (d : Fin 12 → List Nat × List Nat)
    (hw : ∀ e ∈ envs, ∀ p, e.createProgram = some p → p ≠ 0) :
    countGen (drawN envs (initState d)).1 ≤ 2 * 12 ∧
    ∀ env : Env, ∀ s : GState, s.program ≠ 0 →
      draw env s = (drawBody env s, some s) ∧ countGen (drawBody env s) = 0 := by
  constructor
  · have h := drawN_countGen envs (initState d) hw
    have hphi : allocPotential (initState d) = 2 * 12 := rfl
    rw [hphi] at h
    exact h
  · intro env s hs
    exact ⟨draw_ready env s hs, countGen_drawBody env s⟩

/-- C7 (witness): the allocation bound over one concrete frame and the
no-reinitialization fact at a concrete Ready state. -/
theorem buffers_alloc_once_witness :
    countGen (drawN [envA] (initState dA)).1 ≤ 2 * 12 ∧
    draw envA stReady = (drawBody envA stReady, some stReady) := by
  have h := buffers_alloc_once [envA] dA (by
    intro e he p hp
    rw [List.mem_singleton] at he
    subst he
    simp [envA] at hp
    omega)
  exact ⟨h.1, (h.2 envA stReady (by decide)).1⟩

/-- C10: initialization validates nothing about the decompressed
geometry: whenever both streams of every piece decompress at all,
initGL succeeds and each stored vertex count is the floor of the
decompressed vertex byte length over 12, hence nonnegative, trailing
bytes silently ignored; no multiple-of-12 or equal-length condition is
required. -/
theorem no_validation_init (env : Env) (s : GState) (prog : Nat)
    (hc : env.createProgram = some prog)
    (hall : ∀ p ∈ s.pieces, (flateBytes env p.vertexData).isSome ∧
      (flateBytes env p.normalData).isSome) :
    ∃ s2, (initGL env s).2 = some s2 ∧
      List.Forall₂ (fun p q => ∃ v, flateBytes env p.vertexData = some v ∧
        q.vertexCount = (v.length : Int) / 12 ∧ 0 ≤ q.vertexCount) s.pieces s2.pieces := by
  obtain ⟨t, ps2, nb2, hrec⟩ := initPieces_isSome env s.pieces s.nextBuffer hall
  have heq := initGL_of_pieces env s prog t ps2 nb2 hc hrec
  have h2 := initPieces_sound env s.pieces s.nextBuffer t ps2 nb2 hrec
  refine ⟨readyState env prog ps2 nb2 s, by rw [heq], ?_⟩
  refine h2.imp ?_
  intro p q hpq
  obtain ⟨v, n, hv, hn, -, -, -, hcount⟩ := hpq
  refine ⟨v, hv, ?_, ?_⟩
  · rw [hcount]; simp only [coordsPerVertex]; omega
  · rw [hcount]; simp only [coordsPerVertex]; omega

/-- C10 (witness): with 13-byte vertex streams (not a multiple of 12)
and 7-byte normal streams (a different length), initialization still
succeeds, each count the floor 13/12 = 1. -/
theorem no_validation_init_witness :
    ∃ s2, (initGL envD (initState dD)).2 = some s2 ∧
      List.Forall₂ (fun p q => ∃ v, flateBytes envD p.vertexData = some v ∧
        q.vertexCount = (v.length : Int) / 12 ∧ 0 ≤ q.vertexCount)
        (initState dD).pieces s2.pieces :=
  no_validation_init envD (initState dD) 1 rfl (by
    intro p hp
    constructor
    · simp only [flateBytes, envD]
      split <;> rfl
    · simp only [flateBytes, envD]
      split <;> rfl)

end Gopher3d
